import Mathlib

/-!
Verification development for the AFC response-to-mask conversion library
(`src/harness/utils/resp2mask.py` of the 6-GHz-AFC repository).

Numeric model: the Python code computes with `Decimal` values, including the
infinite decimals `Decimal(inf)` and `Decimal(-inf)` used as default margins
and limits.  We model these by `EDec`, the rationals extended with two
infinities.  Values entering the converter come from decimal text (JSON or
TOML), so `Decimal(str(x))` on such a value is the identity in this model:
the canonical decimal string of a value parsed from decimal text denotes the
value itself, with no binary floating-point artifacts.  The final
`float(...)` conversions are likewise modelled as the identity on the exact
decimal value.  `Decimal` arithmetic raises `InvalidOperation` on
`inf - inf`; the operations that can raise are therefore `Option`-valued,
with `none` standing for a raised exception.
-/

/-- A Python `Decimal` value as used by `exp_range_from`: a finite (exact
decimal, hence rational) number or one of the two infinities. -/
inductive EDec where
  | negInf : EDec
  | fin : ℚ → EDec
  | posInf : EDec
deriving DecidableEq

namespace EDec

/-- Boolean comparison on extended decimals, mirroring `Decimal` ordering. -/
def ble : EDec → EDec → Bool
  | .negInf, _ => true
  | _, .posInf => true
  | .posInf, _ => false
  | _, .negInf => false
  | .fin a, .fin b => decide (a ≤ b)

instance : LinearOrder EDec where
  le a b := ble a b = true
  le_refl a := by cases a <;> simp [ble]
  le_trans a b c hab hbc := by
    cases a <;> cases b <;> cases c <;> simp_all [ble]
    exact le_trans hab hbc
  le_antisymm a b h1 h2 := by
    cases a <;> cases b <;> simp_all [ble]
    exact le_antisymm h1 h2
  le_total a b := by
    cases a <;> cases b <;> simp [ble]
    exact le_total _ _
  decidableLE a b := inferInstanceAs (Decidable (ble a b = true))

instance (a b : EDec) : Decidable (a ≤ b) :=
  inferInstanceAs (Decidable (ble a b = true))

/-- Python `min(a, b)`: keeps `a` unless `b` is smaller. -/
def pymin (a b : EDec) : EDec := if a ≤ b then a else b

/-- Python `max(a, b)`: keeps `a` unless `b` is larger. -/
def pymax (a b : EDec) : EDec := if b ≤ a then a else b

/-- Negation of an extended decimal. -/
def neg : EDec → EDec
  | .negInf => .posInf
  | .posInf => .negInf
  | .fin q => .fin (-q)

/-- Addition of extended decimals.  `Decimal` raises `InvalidOperation` on
`inf + (-inf)` (in either order), modelled by `none`. -/
def add? : EDec → EDec → Option EDec
  | .fin a, .fin b => some (.fin (a + b))
  | .negInf, .posInf => none
  | .posInf, .negInf => none
  | .negInf, _ => some .negInf
  | _, .negInf => some .negInf
  | .posInf, _ => some .posInf
  | _, .posInf => some .posInf

/-- Subtraction of extended decimals: addition of the negation, as in
`Decimal`; `inf - inf` and `(-inf) - (-inf)` raise, modelled by `none`. -/
def sub? (a b : EDec) : Option EDec := add? a (neg b)

end EDec

/-- The middle element of the three-element sorted ordering of `a`, `b`, `c`:
models `sorted([limit_lower, nominal_value, limit_upper])[1]`
(resp2mask.py line 80). -/
def median3 (a b c : EDec) : EDec :=
  if a ≤ b then
    if b ≤ c then b
    else if a ≤ c then c
    else a
  else
    if a ≤ c then a
    else if b ≤ c then c
    else b

/-- A margins dictionary: optional `upper` and `lower` keys
(`margins.get('upper', ...)`, resp2mask.py lines 67-68). -/
structure MarginsDict where
  upper : Option EDec
  lower : Option EDec
deriving DecidableEq

/-- A limits dictionary: optional `upper` and `lower` keys
(`limits.get('upper', ...)`, resp2mask.py lines 73-74). -/
structure LimitsDict where
  upper : Option EDec
  lower : Option EDec
deriving DecidableEq

/-- The `ExpectedPowerRange` object constructed by `exp_range_from`
(resp2mask.py lines 87-89). -/
structure ExpectedPowerRange where
  upperBound : EDec
  nominal : EDec
  lowerBound : EDec
deriving DecidableEq

/-- Effective upper margin: default `Decimal(0)` (resp2mask.py line 59). -/
def margin_upper_of : Option MarginsDict → EDec
  | none => .fin 0
  | some m => m.upper.getD (.fin 0)

/-- Effective lower margin: default `Decimal(inf)` (resp2mask.py line 59). -/
def margin_lower_of : Option MarginsDict → EDec
  | none => .posInf
  | some m => m.lower.getD .posInf

/-- Effective upper limit: default `Decimal(inf)` (resp2mask.py line 60). -/
def limit_upper_of : Option LimitsDict → EDec
  | none => .posInf
  | some l => l.upper.getD .posInf

/-- Effective lower limit: default `Decimal(-inf)` (resp2mask.py line 60). -/
def limit_lower_of : Option LimitsDict → EDec
  | none => .negInf
  | some l => l.lower.getD .negInf

/-- `exp_range_from` (resp2mask.py lines 30-89): coerce the nominal value
into the limits by taking the median of `[limit_lower, nominal,
limit_upper]`, then form the range
`[max(nominal - margin_lower, limit_lower),
  min(nominal + margin_upper, limit_upper)]`.
`none` models a raised `InvalidOperation` (only possible when an infinite
clamped nominal meets an infinite margin of the same sign). -/
def exp_range_from (nominal_value : EDec) (margins : Option MarginsDict)
    (limits : Option LimitsDict) : Option ExpectedPowerRange :=
  let margin_upper := margin_upper_of margins
  let margin_lower := margin_lower_of margins
  let limit_upper := limit_upper_of limits
  let limit_lower := limit_lower_of limits
  let nominal := median3 limit_lower nominal_value limit_upper
  match nominal.add? margin_upper, nominal.sub? margin_lower with
  | some upper_bound, some lower_bound =>
    some ⟨EDec.pymin upper_bound limit_upper, nominal,
          EDec.pymax lower_bound limit_lower⟩
  | _, _ => none

/-! ## Data model

The response/mask object graphs come from sibling modules
(`available_spectrum_inquiry_response.py`, `expected_inquiry_response.py`,
`interface_common.py`) that are not part of the sources; the structures
below are modelled from the spec and carry exactly the fields the
conversion code reads or writes. -/

/-- Modelled from the spec: `ResponseCode` (from `interface_common`, not
under the sources) is an enumeration of outcome classifications with one
success code, one generic-failure code, and other specific codes. -/
inductive ResponseCode where
  | SUCCESS : ResponseCode
  | GENERAL_FAILURE : ResponseCode
  | specific : ℤ → ResponseCode
deriving DecidableEq

/-- Modelled from the spec: an opaque vendor-extension payload. -/
structure VendorExtension where
  extensionId : String
deriving DecidableEq

/-- Modelled from the spec: the frequency-range identifier of a
frequency-info record, copied verbatim by the converter. -/
structure FrequencyRange where
  lowFrequency : ℚ
  highFrequency : ℚ
deriving DecidableEq

/-- Modelled from the spec: a source frequency-info record with one nominal
power value `maxPsd`. -/
structure AvailableFrequencyInfo where
  frequencyRange : FrequencyRange
  maxPsd : EDec
deriving DecidableEq

/-- Modelled from the spec: a source channel-info record with identifying
fields and a sequence of nominal power values `maxEirp`. -/
structure AvailableChannelInfo where
  globalOperatingClass : ℚ
  channelCfi : List ℚ
  maxEirp : List EDec
deriving DecidableEq

/-- Modelled from the spec: the response outcome object carrying the
response code (`resp.response.responseCode`). -/
structure AfcResponse where
  responseCode : ResponseCode
deriving DecidableEq

/-- Modelled from the spec: one source response. -/
structure AvailableSpectrumInquiryResponse where
  requestId : String
  rulesetId : String
  response : AfcResponse
  availableFrequencyInfo : List AvailableFrequencyInfo
  availableChannelInfo : List AvailableChannelInfo
  vendorExtensions : Option (List VendorExtension)
deriving DecidableEq

/-- Modelled from the spec: the top-level source message envelope. -/
structure AvailableSpectrumInquiryResponseMessage where
  version : String
  availableSpectrumInquiryResponses : List AvailableSpectrumInquiryResponse
  vendorExtensions : Option (List VendorExtension)
deriving DecidableEq

/-- Modelled from the spec: expected counterpart of a frequency-info
record, the nominal power replaced by its range. -/
structure ExpectedAvailableFrequencyInfo where
  frequencyRange : FrequencyRange
  maxPsd : ExpectedPowerRange
deriving DecidableEq

/-- Modelled from the spec: expected counterpart of a channel-info record,
each nominal power replaced by its range. -/
structure ExpectedAvailableChannelInfo where
  globalOperatingClass : ℚ
  channelCfi : List ℚ
  maxEirp : List ExpectedPowerRange
deriving DecidableEq

/-- Modelled from the spec: the converted (expected) response, in the field
order of the `ExpectedSpectrumInquiryResponse` constructor call
(resp2mask.py lines 149-158). -/
structure ExpectedSpectrumInquiryResponse where
  requestId : String
  rulesetId : String
  expectedResponseCodes : List ResponseCode
  expectedFrequencyInfo : List ExpectedAvailableFrequencyInfo
  expectedChannelInfo : List ExpectedAvailableChannelInfo
  vendorExtensions : Option (List VendorExtension)
  disallowedResponseCodes : Option (List ResponseCode)
deriving DecidableEq

/-- Modelled from the spec: the converted (expected) message envelope
(resp2mask.py lines 172-176). -/
structure ExpectedSpectrumInquiryResponseMessage where
  version : String
  expectedSpectrumInquiryResponses : List ExpectedSpectrumInquiryResponse
  vendorExtensions : Option (List VendorExtension)
deriving DecidableEq

/-! ## Conversion functions -/

/-- A Python list comprehension `[f x for x in xs]` over a fallible `f`:
`none` models an exception raised while converting some element. -/
def mapOpt {α β : Type} (f : α → Option β) : List α → Option (List β)
  | [] => some []
  | x :: xs =>
    match f x, mapOpt f xs with
    | some y, some ys => some (y :: ys)
    | _, _ => none

/-- `exp_freq_info_from` (resp2mask.py lines 91-103): identifiers verbatim,
`maxPsd` expanded to a range. -/
def exp_freq_info_from (avail_info : AvailableFrequencyInfo)
    (margins : Option MarginsDict) (limits : Option LimitsDict) :
    Option ExpectedAvailableFrequencyInfo :=
  (exp_range_from avail_info.maxPsd margins limits).map
    (fun r => ⟨avail_info.frequencyRange, r⟩)

/-- `exp_chan_info_from` (resp2mask.py lines 105-117): identifiers
verbatim, every element of `maxEirp` expanded to its own range. -/
def exp_chan_info_from (avail_info : AvailableChannelInfo)
    (margins : Option MarginsDict) (limits : Option LimitsDict) :
    Option ExpectedAvailableChannelInfo :=
  (mapOpt (fun x => exp_range_from x margins limits) avail_info.maxEirp).map
    (fun rs => ⟨avail_info.globalOperatingClass, avail_info.channelCfi, rs⟩)

/-- A Python value as passed for `exclude_extensions`; the code tests it
with the identity comparison `exclude_extensions is False`
(resp2mask.py lines 157 and 176), which is true only for the Boolean
singleton `False`, not for other falsy values. -/
inductive PyVal where
  | bool : Bool → PyVal
  | int : ℤ → PyVal
  | str : String → PyVal
  | pynone : PyVal
deriving DecidableEq

/-- Python `x is False`: identity with the `False` singleton. -/
def PyVal.isFalse : PyVal → Bool
  | .bool false => true
  | _ => false

/-- `exp_resp_from` (resp2mask.py lines 119-158). -/
def exp_resp_from (resp : AvailableSpectrumInquiryResponse)
    (expect_less_specific_error : Bool) (permit_any_code : Bool)
    (psd_margins : Option MarginsDict) (eirp_margins : Option MarginsDict)
    (eirp_limits : Option LimitsDict) (psd_limits : Option LimitsDict)
    (exclude_extensions : PyVal) : Option ExpectedSpectrumInquiryResponse :=
  let allowed_codes :=
    if expect_less_specific_error ∧ resp.response.responseCode ∉
        [ResponseCode.SUCCESS, ResponseCode.GENERAL_FAILURE] then
      [resp.response.responseCode, ResponseCode.GENERAL_FAILURE]
    else [resp.response.responseCode]
  let disallowed_codes : Option (List ResponseCode) :=
    if permit_any_code then some [] else none
  match mapOpt (fun x => exp_freq_info_from x psd_margins psd_limits)
          resp.availableFrequencyInfo,
        mapOpt (fun x => exp_chan_info_from x eirp_margins eirp_limits)
          resp.availableChannelInfo with
  | some freqs, some chans =>
    some ⟨resp.requestId, resp.rulesetId, allowed_codes, freqs, chans,
          if exclude_extensions.isFalse then resp.vendorExtensions else none,
          disallowed_codes⟩
  | _, _ => none

/-- `exp_msg_from` (resp2mask.py lines 160-176). -/
def exp_msg_from (msg : AvailableSpectrumInquiryResponseMessage)
    (expect_less_specific_error : Bool) (permit_any_code : Bool)
    (psd_margins : Option MarginsDict) (eirp_margins : Option MarginsDict)
    (eirp_limits : Option LimitsDict) (psd_limits : Option LimitsDict)
    (exclude_extensions : PyVal) :
    Option ExpectedSpectrumInquiryResponseMessage :=
  (mapOpt (fun x => exp_resp_from x expect_less_specific_error permit_any_code
      psd_margins eirp_margins eirp_limits psd_limits exclude_extensions)
      msg.availableSpectrumInquiryResponses).map
    (fun rs => ⟨msg.version, rs,
      if exclude_extensions.isFalse then msg.vendorExtensions else none⟩)

/-! ## Driver logic modelled from `main()` -/

/-- The post-conversion normalization pass (resp2mask.py lines 274-278):
when the run-level configuration does not set `permit_any_code` (absent
key defaults to false), every converted response has its
`disallowedResponseCodes` reset to unset. -/
def normalize_disallowed (cfg_permit_any_code : Option Bool)
    (mask : ExpectedSpectrumInquiryResponseMessage) :
    ExpectedSpectrumInquiryResponseMessage :=
  if cfg_permit_any_code.getD false then mask
  else
    { mask with
      expectedSpectrumInquiryResponses :=
        mask.expectedSpectrumInquiryResponses.map
          (fun r => { r with disallowedResponseCodes := none }) }

/-- Extension merging during aggregation (resp2mask.py lines 298-301):
if the accumulator extension list is set, Python calls
`list.extend(mask.vendorExtensions)`, which raises `TypeError` when the
argument is `None` (modelled by the outer `none`); if the accumulator
list is unset, it becomes the document list (set or unset). -/
def merge_extensions (acc doc : Option (List VendorExtension)) :
    Option (Option (List VendorExtension)) :=
  match acc with
  | some xs =>
    match doc with
    | some ys => some (some (xs ++ ys))
    | none => none
  | none => some doc

/-- One iteration of the merge loop (resp2mask.py lines 292-301): a
version mismatch prints a diagnostic and `continue`s the inner loop,
leaving the accumulator unchanged (the document is dropped); otherwise
the response lists are concatenated and extensions merged.  The outer
`none` models a raised exception. -/
def merge_step (acc mask : ExpectedSpectrumInquiryResponseMessage) :
    Option ExpectedSpectrumInquiryResponseMessage :=
  if acc.version ≠ mask.version then some acc
  else
    match merge_extensions acc.vendorExtensions mask.vendorExtensions with
    | some exts =>
      some ⟨acc.version,
            acc.expectedSpectrumInquiryResponses ++
              mask.expectedSpectrumInquiryResponses,
            exts⟩
    | none => none

/-- The mask-set aggregation (resp2mask.py lines 282-301): an empty set is
reported and skipped (`none` here), a singleton is passed through, and a
longer list is folded with `merge_step` starting from the first document. -/
def merge_mask_set :
    List ExpectedSpectrumInquiryResponseMessage →
      Option ExpectedSpectrumInquiryResponseMessage
  | [] => none
  | m :: rest => rest.foldlM merge_step m

/-! ## Output file naming modelled from `main()` -/

/-- `re.fullmatch(REQ-([A-Z]{3})(\d+), requestId)` (resp2mask.py line
304): on success returns the two capture groups.  Character classes are
ASCII, as in the source pattern. -/
def wfa_match (s : String) : Option (String × String) :=
  match s.toList with
  | 'R' :: 'E' :: 'Q' :: '-' :: rest =>
    let letters := rest.take 3
    let digits := rest.drop 3
    if letters.length = 3 ∧
        letters.all (fun c => decide ('A' ≤ c ∧ c ≤ 'Z')) = true ∧
        digits ≠ [] ∧ digits.all (fun c => c.isDigit) = true then
      some (String.mk letters, String.mk digits)
    else none
  | _ => none

/-- `os.path.basename`: the final path component. -/
def basename (p : String) : String :=
  String.mk ((p.toList.reverse.takeWhile (fun c => c != '/')).reverse)

/-- `pathlib.Path(...).stem` for a final path component: the component
without its last dot-suffix; a lone leading dot is not a suffix. -/
def path_stem (component : String) : String :=
  let cs := component.toList
  let tailLen := (cs.reverse.takeWhile (fun c => c != '.')).length
  if tailLen = cs.length then component
  else if cs.length - tailLen - 1 = 0 then component
  else String.mk (cs.take (cs.length - tailLen - 1))

/-- Python `str.replace` for the single-character pattern used at
resp2mask.py line 309 (underscores become dots). -/
def replace_underscores (s : String) : String :=
  String.mk (s.toList.map (fun c => if c = '_' then '.' else c))

/-- The fallback generated name (resp2mask.py lines 221 and 232): for a
directory, its base name; for a file, its stem; plus the mask suffix. -/
def src_gen_name (src_path : String) (is_dir : Bool) : String :=
  if is_dir then basename src_path ++ "_mask.json"
  else path_stem (basename src_path) ++ "_mask.json"

/-- Output mask file naming (resp2mask.py lines 303-315), driven by the
first response of the merged mask; `none` models the `IndexError` on an
empty response list. -/
def mask_file_name (mask : ExpectedSpectrumInquiryResponseMessage)
    (src_path : String) (is_dir : Bool) : Option String :=
  match mask.expectedSpectrumInquiryResponses.head? with
  | none => none
  | some r0 =>
    match wfa_match r0.requestId with
    | some (letters, digits) =>
      if mask.expectedSpectrumInquiryResponses.length > 1 then
        some ("AFCS." ++ replace_underscores (basename src_path) ++ "_mask.json")
      else
        some ("AFCS." ++ letters ++ "." ++ digits ++ "_mask.json")
    | none => some (src_gen_name src_path is_dir)

/-! ## Concrete sample objects used by witnesses and counterexamples -/

/-- A concrete channel-info record used by witnesses. -/
def sampleChanInfo : AvailableChannelInfo :=
  ⟨131, [5, 21], [EDec.fin 10, EDec.fin 12, EDec.fin 14]⟩

/-- The conversion of `sampleChanInfo` under default margins and limits. -/
def sampleChanOut : ExpectedAvailableChannelInfo :=
  ⟨131, [5, 21],
   [⟨EDec.fin 10, EDec.fin 10, EDec.negInf⟩,
    ⟨EDec.fin 12, EDec.fin 12, EDec.negInf⟩,
    ⟨EDec.fin 14, EDec.fin 14, EDec.negInf⟩]⟩

/-- A concrete source response used by witnesses: a specific failure code
and one vendor extension. -/
def sampleResp : AvailableSpectrumInquiryResponse :=
  ⟨"REQ-ABC123", "US_47_CFR_PART_15_SUBPART_E", ⟨ResponseCode.specific 101⟩,
   [], [], some [⟨"openAfc.overrideAfcParams"⟩]⟩

/-- Conversion of `sampleResp` under default conversion options. -/
def sampleOutDefault : ExpectedSpectrumInquiryResponse :=
  ⟨"REQ-ABC123", "US_47_CFR_PART_15_SUBPART_E",
   [ResponseCode.specific 101, ResponseCode.GENERAL_FAILURE], [], [],
   none, none⟩

/-- Conversion of `sampleResp` with `permit_any_code` set. -/
def sampleOutPermitAny : ExpectedSpectrumInquiryResponse :=
  ⟨"REQ-ABC123", "US_47_CFR_PART_15_SUBPART_E",
   [ResponseCode.specific 101, ResponseCode.GENERAL_FAILURE], [], [],
   none, some []⟩

/-- A converted mask holding `sampleOutPermitAny`. -/
def sampleMask : ExpectedSpectrumInquiryResponseMessage :=
  ⟨"1.4", [sampleOutPermitAny], none⟩

/-- A concrete source message with a message-level vendor extension. -/
def sampleMsg : AvailableSpectrumInquiryResponseMessage :=
  ⟨"1.4", [sampleResp], some [⟨"msgLevelExt"⟩]⟩

/-- Conversion of `sampleMsg` under default conversion options. -/
def sampleMsgOut : ExpectedSpectrumInquiryResponseMessage :=
  ⟨"1.4", [sampleOutDefault], none⟩

/-- A minimal converted response carrying a given request identifier, used
by the naming examples. -/
def mkMaskResp (rid : String) : ExpectedSpectrumInquiryResponse :=
  ⟨rid, "US_47_CFR_PART_15_SUBPART_E", [ResponseCode.SUCCESS], [], [], none, none⟩

/-! ## Helper lemmas -/

namespace EDec

theorem le_iff_ble {a b : EDec} : a ≤ b ↔ ble a b = true := Iff.rfl

@[simp] theorem negInf_le (a : EDec) : negInf ≤ a := by
  rw [le_iff_ble]; cases a <;> simp [ble]

@[simp] theorem le_posInf (a : EDec) : a ≤ posInf := by
  rw [le_iff_ble]; cases a <;> simp [ble]

@[simp] theorem fin_le_fin {a b : ℚ} : fin a ≤ fin b ↔ a ≤ b := by
  rw [le_iff_ble]; simp [ble]

@[simp] theorem not_fin_le_negInf (a : ℚ) : ¬ fin a ≤ negInf := by
  rw [le_iff_ble]; simp [ble]

@[simp] theorem not_posInf_le_fin (a : ℚ) : ¬ posInf ≤ fin a := by
  rw [le_iff_ble]; simp [ble]

@[simp] theorem not_posInf_le_negInf : ¬ posInf ≤ negInf := by
  rw [le_iff_ble]; simp [ble]

theorem pymin_le_right (a b : EDec) : pymin a b ≤ b := by
  unfold pymin; split_ifs with h
  · exact h
  · exact le_refl b

theorem le_pymin {a b c : EDec} (h1 : c ≤ a) (h2 : c ≤ b) : c ≤ pymin a b := by
  unfold pymin; split_ifs
  · exact h1
  · exact h2

theorem le_pymax_right (a b : EDec) : b ≤ pymax a b := by
  unfold pymax; split_ifs with h
  · exact h
  · exact le_refl b

theorem pymax_le {a b c : EDec} (h1 : a ≤ c) (h2 : b ≤ c) : pymax a b ≤ c := by
  unfold pymax; split_ifs
  · exact h1
  · exact h2

/-- If adding a nonnegative margin succeeds, the result is at least the
starting value. -/
theorem le_add?_of_nonneg {n m ub : EDec} (hm : fin 0 ≤ m)
    (h : n.add? m = some ub) : n ≤ ub := by
  cases n <;> cases m <;> simp_all [add?]
  · rw [← h, fin_le_fin]; linarith
  · rw [← h]; exact le_posInf _

/-- If subtracting a nonnegative margin succeeds, the result is at most the
starting value. -/
theorem sub?_le_of_nonneg {n m lb : EDec} (hm : fin 0 ≤ m)
    (h : n.sub? m = some lb) : lb ≤ n := by
  cases n <;> cases m <;> simp_all [sub?, add?, neg]
  · rw [← h, fin_le_fin]; linarith
  · rw [← h]; exact negInf_le _

end EDec

theorem median3_lower {a c : EDec} (b : EDec) (hac : a ≤ c) :
    a ≤ median3 a b c := by
  unfold median3
  split_ifs <;> first | assumption | exact le_refl _

theorem median3_upper {a c : EDec} (b : EDec) (hac : a ≤ c) :
    median3 a b c ≤ c := by
  unfold median3
  split_ifs <;> first | assumption | exact le_refl _

/-! ## Claim theorems -/

/-- Claim C1: for every nominal value, margins with nonnegative upper and
lower components, and limits with `limits.lower ≤ limits.upper`, the range
returned by `exp_range_from` (when the computation returns one) satisfies
`limits.lower ≤ lowerBound ≤ nominal ≤ upperBound ≤ limits.upper`, where
the nominal stored in the result is the original nominal clamped into the
limits as the median of the three values; in particular the range is
non-empty. -/
theorem exp_range_from_within_limits (nominal : EDec)
    (margins : Option MarginsDict) (limits : Option LimitsDict)
    (r : ExpectedPowerRange)
    (hmu : EDec.fin 0 ≤ margin_upper_of margins)
    (hml : EDec.fin 0 ≤ margin_lower_of margins)
    (hl : limit_lower_of limits ≤ limit_upper_of limits)
    (hr : exp_range_from nominal margins limits = some r) :
    limit_lower_of limits ≤ r.lowerBound ∧
    r.lowerBound ≤ r.nominal ∧
    r.nominal ≤ r.upperBound ∧
    r.upperBound ≤ limit_upper_of limits ∧
    r.nominal = median3 (limit_lower_of limits) nominal (limit_upper_of limits) := by
  simp only [exp_range_from] at hr
  cases h1 : EDec.add? (median3 (limit_lower_of limits) nominal (limit_upper_of limits))
      (margin_upper_of margins) with
  | none => rw [h1] at hr; simp at hr
  | some ub =>
    cases h2 : EDec.sub? (median3 (limit_lower_of limits) nominal (limit_upper_of limits))
        (margin_lower_of margins) with
    | none => rw [h1, h2] at hr; simp at hr
    | some lb =>
      rw [h1, h2] at hr
      simp only [Option.some.injEq] at hr
      subst hr
      exact ⟨EDec.le_pymax_right lb (limit_lower_of limits),
             EDec.pymax_le (EDec.sub?_le_of_nonneg hml h2) (median3_lower nominal hl),
             EDec.le_pymin (EDec.le_add?_of_nonneg hmu h1) (median3_upper nominal hl),
             EDec.pymin_le_right ub (limit_upper_of limits),
             rfl⟩

/-- Witness for C1 at a concrete input. -/
theorem exp_range_from_within_limits_witness :
    limit_lower_of (some ⟨some (EDec.fin 4), some (EDec.fin 0)⟩) ≤
        (ExpectedPowerRange.mk (EDec.fin 4) (EDec.fin 4) (EDec.fin 2)).lowerBound ∧
    (ExpectedPowerRange.mk (EDec.fin 4) (EDec.fin 4) (EDec.fin 2)).lowerBound ≤
        (ExpectedPowerRange.mk (EDec.fin 4) (EDec.fin 4) (EDec.fin 2)).nominal ∧
    (ExpectedPowerRange.mk (EDec.fin 4) (EDec.fin 4) (EDec.fin 2)).nominal ≤
        (ExpectedPowerRange.mk (EDec.fin 4) (EDec.fin 4) (EDec.fin 2)).upperBound ∧
    (ExpectedPowerRange.mk (EDec.fin 4) (EDec.fin 4) (EDec.fin 2)).upperBound ≤
        limit_upper_of (some ⟨some (EDec.fin 4), some (EDec.fin 0)⟩) ∧
    (ExpectedPowerRange.mk (EDec.fin 4) (EDec.fin 4) (EDec.fin 2)).nominal =
        median3 (limit_lower_of (some ⟨some (EDec.fin 4), some (EDec.fin 0)⟩))
          (EDec.fin 5)
          (limit_upper_of (some ⟨some (EDec.fin 4), some (EDec.fin 0)⟩)) :=
  exp_range_from_within_limits (EDec.fin 5)
    (some ⟨some (EDec.fin 1), some (EDec.fin 2)⟩)
    (some ⟨some (EDec.fin 4), some (EDec.fin 0)⟩)
    ⟨EDec.fin 4, EDec.fin 4, EDec.fin 2⟩
    (by decide) (by decide) (by decide)
    (by norm_num [exp_range_from, margin_upper_of, margin_lower_of,
      limit_upper_of, limit_lower_of, median3, EDec.add?, EDec.sub?, EDec.neg,
      EDec.pymin, EDec.pymax])

/-- Claim C7: the range arithmetic is exact decimal arithmetic: expanding
the nominal 0.1 with an upper margin of 0.2 yields an upper bound exactly
equal to 0.3, not the binary floating-point artifact
0.30000000000000004. -/
theorem exp_range_from_decimal_fidelity :
    exp_range_from (EDec.fin (1/10)) (some ⟨some (EDec.fin (2/10)), none⟩) none =
      some ⟨EDec.fin (3/10), EDec.fin (1/10), EDec.negInf⟩ ∧
    EDec.fin (3/10) ≠ EDec.fin (30000000000000004 / 100000000000000000) := by
  constructor
  · norm_num [exp_range_from, margin_upper_of, margin_lower_of,
      limit_upper_of, limit_lower_of, median3, EDec.add?, EDec.sub?, EDec.neg,
      EDec.pymin, EDec.pymax]
  · intro h
    rw [EDec.fin.injEq] at h
    norm_num at h

/-- Counterexample to claim C8 as stated: with all-default margins and
limits, the range returned for the nominal 0 has a lower bound literally
equal to negative infinity (the claim says negative infinity is never the
output). -/
theorem exp_range_from_default_lower_negInf :
    exp_range_from (EDec.fin 0) none none =
      some ⟨EDec.fin 0, EDec.fin 0, EDec.negInf⟩ ∧
    (ExpectedPowerRange.mk (EDec.fin 0) (EDec.fin 0) EDec.negInf).lowerBound =
      EDec.negInf := by
  constructor
  · norm_num [exp_range_from, margin_upper_of, margin_lower_of,
      limit_upper_of, limit_lower_of, median3, EDec.add?, EDec.sub?, EDec.neg,
      EDec.pymin, EDec.pymax]
  · rfl

/-- Claim C8 (amended): for every nominal other than positive infinity,
`exp_range_from` with all-default margins and limits returns the range
whose upper bound and stored nominal are the unclamped nominal and whose
lower bound is literally negative infinity (for a positive-infinite
nominal the subtraction raises and no range is returned). -/
theorem exp_range_from_default_margins (nominal : EDec)
    (h : nominal ≠ EDec.posInf) :
    exp_range_from nominal none none =
      some ⟨nominal, nominal, EDec.negInf⟩ := by
  cases nominal with
  | posInf => exact absurd rfl h
  | negInf =>
    norm_num [exp_range_from, margin_upper_of, margin_lower_of,
      limit_upper_of, limit_lower_of, median3, EDec.add?, EDec.sub?, EDec.neg,
      EDec.pymin, EDec.pymax]
  | fin q =>
    norm_num [exp_range_from, margin_upper_of, margin_lower_of,
      limit_upper_of, limit_lower_of, median3, EDec.add?, EDec.sub?, EDec.neg,
      EDec.pymin, EDec.pymax]

/-- Witness for the amended C8 at a concrete input. -/
theorem exp_range_from_default_margins_witness :
    EDec.fin 7 ≠ EDec.posInf ∧
    exp_range_from (EDec.fin 7) none none =
      some ⟨EDec.fin 7, EDec.fin 7, EDec.negInf⟩ :=
  ⟨by decide, exp_range_from_default_margins (EDec.fin 7) (by decide)⟩

/-- A successful `mapOpt` run converts the lists pointwise. -/
theorem mapOpt_forall2 {α β : Type} {f : α → Option β} :
    ∀ {xs : List α} {ys : List β}, mapOpt f xs = some ys →
      List.Forall₂ (fun a b => f a = some b) xs ys := by
  intro xs
  induction xs with
  | nil =>
    intro ys h
    simp only [mapOpt, Option.some.injEq] at h
    subst h
    exact List.Forall₂.nil
  | cons x xs ih =>
    intro ys h
    simp only [mapOpt] at h
    cases hfx : f x with
    | none => rw [hfx] at h; simp at h
    | some y =>
      cases hrec : mapOpt f xs with
      | none => rw [hfx, hrec] at h; simp at h
      | some ys0 =>
        rw [hfx, hrec] at h
        simp only [Option.some.injEq] at h
        subst h
        exact List.Forall₂.cons hfx (ih hrec)

/-- Claim C6: `exp_chan_info_from` copies the operating-class and channel
identifiers verbatim, and the expected power ranges are in bijection with
the input `maxEirp` sequence: same length, same order, the i-th range
obtained by expanding the i-th input value. -/
theorem exp_chan_info_from_structure (info : AvailableChannelInfo)
    (margins : Option MarginsDict) (limits : Option LimitsDict)
    (out : ExpectedAvailableChannelInfo)
    (h : exp_chan_info_from info margins limits = some out) :
    out.globalOperatingClass = info.globalOperatingClass ∧
    out.channelCfi = info.channelCfi ∧
    out.maxEirp.length = info.maxEirp.length ∧
    ∀ i (h1 : i < info.maxEirp.length) (h2 : i < out.maxEirp.length),
      exp_range_from (info.maxEirp.get ⟨i, h1⟩) margins limits =
        some (out.maxEirp.get ⟨i, h2⟩) := by
  simp only [exp_chan_info_from] at h
  cases hm : mapOpt (fun x => exp_range_from x margins limits) info.maxEirp with
  | none => rw [hm] at h; simp at h
  | some rs =>
    rw [hm] at h
    simp only [Option.map_some', Option.some.injEq] at h
    subst h
    have hf := mapOpt_forall2 hm
    exact ⟨rfl, rfl, hf.length_eq.symm, fun i h1 h2 => hf.get h1 h2⟩

/-- Witness for C6 at a concrete input (`maxEirp = [10, 12, 14]`). -/
theorem exp_chan_info_from_structure_witness :
    sampleChanOut.globalOperatingClass = sampleChanInfo.globalOperatingClass ∧
    sampleChanOut.channelCfi = sampleChanInfo.channelCfi ∧
    sampleChanOut.maxEirp.length = sampleChanInfo.maxEirp.length ∧
    exp_range_from (EDec.fin 12) none none =
      some ⟨EDec.fin 12, EDec.fin 12, EDec.negInf⟩ := by
  have h := exp_chan_info_from_structure sampleChanInfo none none sampleChanOut
    (by norm_num [exp_chan_info_from, mapOpt, exp_range_from, margin_upper_of,
      margin_lower_of, limit_upper_of, limit_lower_of, median3, EDec.add?,
      EDec.sub?, EDec.neg, EDec.pymin, EDec.pymax, sampleChanInfo, sampleChanOut])
  exact ⟨h.1, h.2.1, h.2.2.1, h.2.2.2 1 (by decide) (by decide)⟩

/-- Claim C4: `expectedResponseCodes` is the singleton of the original
response code unless `expect_less_specific_error` is set and the code is
neither the success code nor the generic-failure code, in which case it is
exactly the pair of the original code and the generic-failure code. -/
theorem exp_resp_from_codes (resp : AvailableSpectrumInquiryResponse)
    (elss pac : Bool) (pm em : Option MarginsDict) (el pl : Option LimitsDict)
    (ex : PyVal) (out : ExpectedSpectrumInquiryResponse)
    (h : exp_resp_from resp elss pac pm em el pl ex = some out) :
    ((elss = false ∨ resp.response.responseCode ∈
        [ResponseCode.SUCCESS, ResponseCode.GENERAL_FAILURE]) →
      out.expectedResponseCodes = [resp.response.responseCode]) ∧
    (elss = true →
      resp.response.responseCode ∉
        [ResponseCode.SUCCESS, ResponseCode.GENERAL_FAILURE] →
      out.expectedResponseCodes =
        [resp.response.responseCode, ResponseCode.GENERAL_FAILURE]) := by
  simp only [exp_resp_from] at h
  cases hf : mapOpt (fun x => exp_freq_info_from x pm pl)
      resp.availableFrequencyInfo with
  | none => rw [hf] at h; simp at h
  | some freqs =>
    cases hc : mapOpt (fun x => exp_chan_info_from x em el)
        resp.availableChannelInfo with
    | none => rw [hf, hc] at h; simp at h
    | some chans =>
      rw [hf, hc] at h
      simp only [Option.some.injEq] at h
      subst h
      constructor
      · rintro (h1 | h1)
        · simp [h1]
        · simp [h1]
      · intro h1 h2
        simp [h1, h2]

/-- Witness for C4 at a concrete input. -/
theorem exp_resp_from_codes_witness :
    sampleOutDefault.expectedResponseCodes =
      [ResponseCode.specific 101, ResponseCode.GENERAL_FAILURE] :=
  (exp_resp_from_codes sampleResp true false none none none none
    (PyVal.bool true) sampleOutDefault (by decide)).2 rfl (by decide)

/-- Claim C5: immediately after conversion `disallowedResponseCodes` is the
explicit empty list when `permit_any_code` is set and unset otherwise; and
after the normalization pass of the driver, when the run-level
configuration leaves `permit_any_code` false (or absent), every response
of the mask has `disallowedResponseCodes` unset. -/
theorem disallowed_codes_policy :
    (∀ (resp : AvailableSpectrumInquiryResponse) (elss pac : Bool)
        (pm em : Option MarginsDict) (el pl : Option LimitsDict) (ex : PyVal)
        (out : ExpectedSpectrumInquiryResponse),
        exp_resp_from resp elss pac pm em el pl ex = some out →
        out.disallowedResponseCodes = if pac then some [] else none) ∧
    (∀ (cfg : Option Bool) (mask : ExpectedSpectrumInquiryResponseMessage),
        cfg.getD false = false →
        ∀ r ∈ (normalize_disallowed cfg mask).expectedSpectrumInquiryResponses,
          r.disallowedResponseCodes = none) := by
  constructor
  · intro resp elss pac pm em el pl ex out h
    simp only [exp_resp_from] at h
    cases hf : mapOpt (fun x => exp_freq_info_from x pm pl)
        resp.availableFrequencyInfo with
    | none => rw [hf] at h; simp at h
    | some freqs =>
      cases hc : mapOpt (fun x => exp_chan_info_from x em el)
          resp.availableChannelInfo with
      | none => rw [hf, hc] at h; simp at h
      | some chans =>
        rw [hf, hc] at h
        simp only [Option.some.injEq] at h
        subst h
        rfl
  · intro cfg mask hcfg r hr
    simp only [normalize_disallowed, hcfg] at hr
    simp only [Bool.false_eq_true, if_false, List.mem_map] at hr
    obtain ⟨r0, _, rfl⟩ := hr
    rfl

/-- Witness for C5 at concrete inputs. -/
theorem disallowed_codes_policy_witness :
    sampleOutPermitAny.disallowedResponseCodes = some [] ∧
    sampleOutDefault.disallowedResponseCodes = none :=
  ⟨disallowed_codes_policy.1 sampleResp true true none none none none
      (PyVal.bool true) sampleOutPermitAny (by decide),
   disallowed_codes_policy.2 (some false) sampleMask (by decide)
      sampleOutDefault (by decide)⟩

/-- `x is False` holds exactly for the Boolean singleton `False`. -/
theorem PyVal.isFalse_eq_true_iff {v : PyVal} :
    v.isFalse = true ↔ v = PyVal.bool false := by
  cases v with
  | bool b => cases b <;> simp [PyVal.isFalse]
  | int n => simp [PyVal.isFalse]
  | str s => simp [PyVal.isFalse]
  | pynone => simp [PyVal.isFalse]

/-- Claim C10: both `exp_resp_from` and `exp_msg_from` carry the source
vendor extensions into the output precisely when `exclude_extensions` is
the Boolean object `False` itself (Python identity `is False`); every
other value, including the falsy values `0`, `None` and the empty string,
leaves the output extensions unset. -/
theorem extensions_identity_policy :
    (∀ (resp : AvailableSpectrumInquiryResponse) (elss pac : Bool)
        (pm em : Option MarginsDict) (el pl : Option LimitsDict) (ex : PyVal)
        (out : ExpectedSpectrumInquiryResponse),
        exp_resp_from resp elss pac pm em el pl ex = some out →
        out.vendorExtensions =
          if ex = PyVal.bool false then resp.vendorExtensions else none) ∧
    (∀ (msg : AvailableSpectrumInquiryResponseMessage) (elss pac : Bool)
        (pm em : Option MarginsDict) (el pl : Option LimitsDict) (ex : PyVal)
        (out : ExpectedSpectrumInquiryResponseMessage),
        exp_msg_from msg elss pac pm em el pl ex = some out →
        out.vendorExtensions =
          if ex = PyVal.bool false then msg.vendorExtensions else none) := by
  constructor
  · intro resp elss pac pm em el pl ex out h
    simp only [exp_resp_from] at h
    cases hf : mapOpt (fun x => exp_freq_info_from x pm pl)
        resp.availableFrequencyInfo with
    | none => rw [hf] at h; simp at h
    | some freqs =>
      cases hc : mapOpt (fun x => exp_chan_info_from x em el)
          resp.availableChannelInfo with
      | none => rw [hf, hc] at h; simp at h
      | some chans =>
        rw [hf, hc] at h
        simp only [Option.some.injEq] at h
        subst h
        simp only [PyVal.isFalse_eq_true_iff]
  · intro msg elss pac pm em el pl ex out h
    simp only [exp_msg_from] at h
    cases hm : mapOpt (fun x => exp_resp_from x elss pac pm em el pl ex)
        msg.availableSpectrumInquiryResponses with
    | none => rw [hm] at h; simp at h
    | some rs =>
      rw [hm] at h
      simp only [Option.map_some', Option.some.injEq] at h
      subst h
      simp only [PyVal.isFalse_eq_true_iff]

/-- Witness for C10 at concrete inputs with the falsy non-Boolean `0`. -/
theorem extensions_identity_policy_witness :
    sampleOutDefault.vendorExtensions = none ∧
    sampleMsgOut.vendorExtensions = none :=
  ⟨extensions_identity_policy.1 sampleResp true false none none none none
      (PyVal.int 0) sampleOutDefault (by decide),
   extensions_identity_policy.2 sampleMsg true false none none none none
      (PyVal.int 0) sampleMsgOut (by decide)⟩

/-- Claim C2 (code evaluation at the failing input): a version mismatch
during aggregation does NOT reject the response set.  The merge loop
`continue`s only its inner iteration, so the offending document is
silently dropped (after a printed diagnostic claiming the set is skipped)
and an output mask is still produced from the remaining documents; with
three documents, the already-merged and later documents are kept. -/
theorem merge_version_mismatch_still_outputs :
    merge_mask_set
      [⟨"1.4", [sampleOutDefault], none⟩, ⟨"1.3", [sampleOutPermitAny], none⟩] =
      some ⟨"1.4", [sampleOutDefault], none⟩ ∧
    merge_mask_set
      [⟨"1.4", [sampleOutDefault], none⟩, ⟨"1.3", [sampleOutPermitAny], none⟩,
       ⟨"1.4", [sampleOutPermitAny], none⟩] =
      some ⟨"1.4", [sampleOutDefault, sampleOutPermitAny], none⟩ := by
  constructor <;> decide

/-- Counterexample to claim C3 as stated: merging two same-version masks
where the accumulator has vendor extensions and the next document has
unset extensions raises (`list.extend(None)`), so the merge step does fail
with one of the two extension lists unset. -/
theorem merge_extensions_unset_doc_counterexample :
    merge_mask_set
      [⟨"1.4", [sampleOutDefault], some [⟨"openAfc.ext1"⟩]⟩,
       ⟨"1.4", [sampleOutPermitAny], none⟩] = none := by decide

/-- Claim C3 (amended): for same-version documents, vendor extensions are
merged by concatenation when both lists are set; when the accumulator list
is unset, the document extension list (set or unset) becomes the result
and the step cannot fail; but when the accumulator list is set and the
document list is unset, the merge step raises and the response set
produces no mask. -/
theorem merge_step_extension_cases
    (acc doc : ExpectedSpectrumInquiryResponseMessage)
    (hv : acc.version = doc.version) :
    (acc.vendorExtensions = none →
      merge_step acc doc =
        some ⟨acc.version,
              acc.expectedSpectrumInquiryResponses ++
                doc.expectedSpectrumInquiryResponses,
              doc.vendorExtensions⟩) ∧
    (∀ xs ys, acc.vendorExtensions = some xs → doc.vendorExtensions = some ys →
      merge_step acc doc =
        some ⟨acc.version,
              acc.expectedSpectrumInquiryResponses ++
                doc.expectedSpectrumInquiryResponses,
              some (xs ++ ys)⟩) ∧
    (∀ xs, acc.vendorExtensions = some xs → doc.vendorExtensions = none →
      merge_step acc doc = none) := by
  refine ⟨fun h1 => ?_, fun xs ys h1 h2 => ?_, fun xs h1 h2 => ?_⟩
  · simp [merge_step, merge_extensions, hv, h1]
  · simp [merge_step, merge_extensions, hv, h1, h2]
  · simp [merge_step, merge_extensions, hv, h1, h2]

/-- Witness for the amended C3 at concrete inputs. -/
theorem merge_step_extension_cases_witness :
    merge_step ⟨"1.4", [sampleOutDefault], some [⟨"openAfc.ext1"⟩]⟩
        ⟨"1.4", [sampleOutPermitAny], some [⟨"openAfc.ext2"⟩]⟩ =
      some ⟨"1.4", [sampleOutDefault, sampleOutPermitAny],
            some [⟨"openAfc.ext1"⟩, ⟨"openAfc.ext2"⟩]⟩ :=
  (merge_step_extension_cases
      ⟨"1.4", [sampleOutDefault], some [⟨"openAfc.ext1"⟩]⟩
      ⟨"1.4", [sampleOutPermitAny], some [⟨"openAfc.ext2"⟩]⟩ rfl).2.1
    [⟨"openAfc.ext1"⟩] [⟨"openAfc.ext2"⟩] rfl rfl

/-- Claim C9: output mask naming.  When the first response requestId
matches `REQ-<3 uppercase letters><digits>`: one response gives
`AFCS.<letters>.<digits>_mask.json`, several responses give
`AFCS.<source dir name, underscores to dots>_mask.json`; otherwise the
source base name (directory name or file stem) plus `_mask.json` is used.
The three concrete conjuncts check the worked examples
(`REQ-ABC123` alone, `REQ-ABC...` times four in `cert_vectors`, and
`CUSTOM-1` from `myresp.json`). -/
theorem mask_file_name_rules :
    (∀ (mask : ExpectedSpectrumInquiryResponseMessage)
        (r0 : ExpectedSpectrumInquiryResponse) (src_path : String)
        (is_dir : Bool) (letters digits : String),
        mask.expectedSpectrumInquiryResponses.head? = some r0 →
        wfa_match r0.requestId = some (letters, digits) →
        ((mask.expectedSpectrumInquiryResponses.length = 1 →
          mask_file_name mask src_path is_dir =
            some ("AFCS." ++ letters ++ "." ++ digits ++ "_mask.json")) ∧
         (mask.expectedSpectrumInquiryResponses.length > 1 →
          mask_file_name mask src_path is_dir =
            some ("AFCS." ++ replace_underscores (basename src_path) ++
              "_mask.json")))) ∧
    (∀ (mask : ExpectedSpectrumInquiryResponseMessage)
        (r0 : ExpectedSpectrumInquiryResponse) (src_path : String)
        (is_dir : Bool),
        mask.expectedSpectrumInquiryResponses.head? = some r0 →
        wfa_match r0.requestId = none →
        mask_file_name mask src_path is_dir =
          some (src_gen_name src_path is_dir)) ∧
    mask_file_name ⟨"1.4", [mkMaskResp "REQ-ABC123"], none⟩ "resp_dir" true =
      some "AFCS.ABC.123_mask.json" ∧
    mask_file_name
      ⟨"1.4", [mkMaskResp "REQ-ABC123", mkMaskResp "REQ-ABC124",
               mkMaskResp "REQ-ABC125", mkMaskResp "REQ-ABC126"], none⟩
      "cert_vectors" true = some "AFCS.cert.vectors_mask.json" ∧
    mask_file_name ⟨"1.4", [mkMaskResp "CUSTOM-1"], none⟩ "myresp.json" false =
      some "myresp_mask.json" := by
  refine ⟨fun mask r0 sp d l dg h0 hw => ⟨fun hlen => ?_, fun hlen => ?_⟩,
          fun mask r0 sp d h0 hw => ?_, by decide, by decide, by decide⟩
  · simp [mask_file_name, h0, hw, hlen]
  · simp [mask_file_name, h0, hw, hlen]
  · simp [mask_file_name, h0, hw]

/-- Witness for C9 at concrete inputs. -/
theorem mask_file_name_rules_witness :
    mask_file_name ⟨"1.4", [mkMaskResp "REQ-XYZ77"], none⟩ "d" true =
      some "AFCS.XYZ.77_mask.json" ∧
    mask_file_name ⟨"1.4", [mkMaskResp "CUSTOM-7"], none⟩ "vecs" true =
      some (src_gen_name "vecs" true) :=
  ⟨(mask_file_name_rules.1 ⟨"1.4", [mkMaskResp "REQ-XYZ77"], none⟩
      (mkMaskResp "REQ-XYZ77") "d" true "XYZ" "77" rfl (by decide)).1 rfl,
   mask_file_name_rules.2.1 ⟨"1.4", [mkMaskResp "CUSTOM-7"], none⟩
      (mkMaskResp "CUSTOM-7") "vecs" true rfl (by decide)⟩
